import Mathlib

/-!
# Verification of `scrapy_selenium/middlewares.py` (SeleniumMiddleware)

A shallow embedding of the middleware in `src/scrapy_selenium/middlewares.py`:
the driver factory (`create_driver`), the bounded driver pool (a
`queue.Queue(maxsize=pool_size)`), the request orchestrator
(`process_request`) and the shutdown hook (`spider_closed`), together with
theorems settling the specification claims about them.

Python exceptions are modelled with `Except`/explicit outcome types; a
`Queue.put` on a full queue (which blocks forever in a sequential caller)
is modelled as `none`; machine-level details (real selenium processes,
actual timeouts) are abstracted into an oracle describing the behaviour of
one driver.
-/

namespace ScrapySelenium

/-- Decidable equality on `Except`, so concrete outcomes can be compared
with `decide`. -/
instance instDecEqExcept {ε α : Type} [DecidableEq ε] [DecidableEq α] :
    DecidableEq (Except ε α) := fun x y =>
  match x, y with
  | .ok a, .ok b =>
    if h : a = b then .isTrue (by rw [h])
    else .isFalse (by intro hc; cases hc; exact h rfl)
  | .ok _, .error _ => .isFalse (by intro hc; cases hc)
  | .error _, .ok _ => .isFalse (by intro hc; cases hc)
  | .error e, .error f =>
    if h : e = f then .isTrue (by rw [h])
    else .isFalse (by intro hc; cases hc; exact h rfl)

/-- Python-level errors that the middleware code can raise, plus the error
names the specification's taxonomy mentions (some of which the code never
raises — they are included so that claims phrased in terms of them can be
stated and refuted). -/
inductive PyError
  /-- `NameError`: the `except Empty:` / `logging.error` handler in
  `process_request` references names (`Empty`, `logging`) that the module
  never imports, so the handler itself raises `NameError` when the
  `Queue.get` timeout fires. -/
  | nameErrorEmpty
  /-- `UnboundLocalError`: `create_driver` falls through all branches
  without assigning `driver` and then executes `return driver`. -/
  | unboundLocal
  /-- A failure of one of the drive steps inside `process_request`
  (navigate / cookie / wait / screenshot / script / read). -/
  | drive (msg : String)
  /-- Provisioning failure raised by the driver factory. -/
  | provisioning (msg : String)
  /-- Spec taxonomy: `PoolClosedError`.  The code has no such error. -/
  | poolClosed
  /-- Spec taxonomy: `UnsupportedBrowserError`.  The code has no such
  error. -/
  | unsupportedBrowser
  deriving Repr, DecidableEq

/-- The configuration fields of `SeleniumMiddleware.__init__`
(`driver_name`, `driver_executable_path`, `browser_executable_path`,
`command_executor`, `driver_arguments`). -/
structure Config where
  driver_name : String
  driver_executable_path : Option String
  browser_executable_path : Option String
  command_executor : Option String
  driver_arguments : List String
  deriving Repr, DecidableEq

/-- The kind-specific selenium options object built at the top of
`create_driver`: a binary location and the ordered launch arguments. -/
structure Options where
  binary_location : Option String
  arguments : List String
  deriving Repr, DecidableEq

/-- Python's `str.lower()` (ASCII case folding of the browser-kind names
involved), written as a structural map over the characters so that the
kernel can evaluate it on concrete configs. -/
def lowerStr (s : String) : String := ⟨s.data.map Char.toLower⟩

/-- Python truthiness of an optional string (`if self.browser_executable_path:`
is false both for `None` and for the empty string). -/
def truthyStr : Option String → Bool
  | none => false
  | some s => s ≠ ""

/-- The options built by `create_driver` lines 68–73: `binary_location` is
set when `browser_executable_path` is truthy, and every entry of
`driver_arguments` is added, in order, via `add_argument`. -/
def buildOptions (c : Config) : Options :=
  { binary_location := if truthyStr c.browser_executable_path then c.browser_executable_path else none
    arguments := c.driver_arguments }

/-- The driver value produced by `create_driver`: one constructor per
provisioning branch of the source. -/
inductive Driver
  /-- `driver_klass(**driver_kwargs)` with `executable_path` and the
  `<name>_options` keyword: the locally-installed-driver branch. -/
  | localDriver (executable_path : String) (options_key : String) (opts : Options)
  /-- `webdriver.Remote(command_executor=..., desired_capabilities=...)`:
  the remote branch; the options are translated to capabilities. -/
  | remoteDriver (command_executor : String) (capabilities : Options)
  /-- `webdriver.Chrome(options=..., service=ChromeService(...install()))`:
  the webdriver-manager branch, which exists only for chrome. -/
  | managedChrome (opts : Options)
  deriving Repr, DecidableEq

/-- `SeleniumMiddleware.create_driver` (lines 58–104).  Branch structure of
the source: `if self.driver_executable_path is not None` → local driver;
`elif self.command_executor is not None` → remote driver; else the
webdriver-manager branch, which assigns `driver` only when
`self.driver_name and self.driver_name.lower() == 'chrome'`, so every
other kind reaches `return driver` with `driver` unassigned
(`UnboundLocalError`). -/
def create_driver (c : Config) : Except PyError Driver :=
  let driver_options := buildOptions c
  match c.driver_executable_path with
  | some p => .ok (.localDriver p (c.driver_name ++ "_options") driver_options)
  | none =>
    match c.command_executor with
    | some ep => .ok (.remoteDriver ep driver_options)
    | none =>
      if c.driver_name ≠ "" && lowerStr c.driver_name == "chrome" then
        .ok (.managedChrome driver_options)
      else
        .error .unboundLocal

/-- Provisioning-mode tags, as the spec's §4.1 names them. -/
inductive ModeTag
  | localBinary
  | remote
  | autoManaged
  deriving Repr, DecidableEq

/-- Modelled from the spec: the mode-selection policy of §4.1, by its
words — local binary mode if `executable_path` is set, else remote mode if
`remote_endpoint` is set, else auto-managed mode. -/
def specMode (c : Config) : ModeTag :=
  if c.driver_executable_path.isSome then .localBinary
  else if c.command_executor.isSome then .remote
  else .autoManaged

/-- The provisioning mode a `create_driver` run actually took: read off
the produced driver, with the `UnboundLocalError` fall-through counted as
the auto-managed branch (it is reached only there). -/
def modeOf : Except PyError Driver → ModeTag
  | .ok (.localDriver _ _ _) => .localBinary
  | .ok (.remoteDriver _ _) => .remote
  | .ok (.managedChrome _) => .autoManaged
  | .error _ => .autoManaged

/-- The options object carried by a driver, in whichever branch built it. -/
def Driver.opts : Driver → Options
  | .localDriver _ _ o => o
  | .remoteDriver _ o => o
  | .managedChrome o => o

/-! ## The driver pool

`self.driver_pool = Queue(maxsize=pool_size)` with `get`/`put`.  Sessions
are identified by the `Nat` handed out by a counter (`nextId`); `pool` is
the FIFO queue content (head = front), `checkedOut` is ghost bookkeeping of
the drivers currently held by callers, and `terminated` records every
`driver.quit()` call in order (most recent first). -/

/-- The mutable state of a `SeleniumMiddleware` instance, plus ghost
bookkeeping (`checkedOut`, `terminated`) used only to state properties. -/
structure MidState where
  poolMax : Nat
  nextId : Nat
  pool : List Nat
  checkedOut : List Nat
  terminated : List Nat
  deriving Repr, DecidableEq

/-- `Queue.get(timeout=...)`: pops the front of the FIFO queue; `none`
models the timeout elapsing with the queue still empty (the `Empty`
exception). -/
def qget (s : MidState) : Option (Nat × MidState) :=
  match s.pool with
  | [] => none
  | d :: rest => some (d, { s with pool := rest, checkedOut := d :: s.checkedOut })

/-- `Queue.put(d)`: appends at the back when the queue is below `maxsize`;
`none` models the put blocking forever on a full queue. -/
def qput (s : MidState) (d : Nat) : Option MidState :=
  if s.pool.length < s.poolMax then
    some { s with pool := s.pool ++ [d], checkedOut := s.checkedOut.erase d }
  else none

/-- `SeleniumMiddleware.__init__` lines 25–27 in the case where every
`create_driver()` call succeeds: `pool_size` drivers (ids `0..n-1`) are
created and put into the fresh `Queue(maxsize=pool_size)` in order. -/
def initPoolOk (n : Nat) : MidState :=
  { poolMax := n, nextId := n, pool := List.range n, checkedOut := [], terminated := [] }

/-- Observable result of running the `__init__` provisioning loop with a
factory that may fail: which sessions were created (in order), which ended
up enqueued, which were terminated during the loop, and the loop's
outcome. -/
structure InitResult where
  created : List Nat
  enqueued : List Nat
  terminatedInit : List Nat
  outcome : Except PyError Unit
  deriving Repr, DecidableEq

/-- The `for _ in range(pool_size): self.driver_pool.put(self.create_driver())`
loop, with `failsAt i` the outcome of the `i`-th factory call.  On a
factory failure the exception propagates out of `__init__` at once; the
source has no cleanup handler, so no `quit` happens (`terminatedInit`
stays empty). -/
def initLoop (failsAt : Nat → Option PyError) : Nat → Nat → List Nat → InitResult
  | 0, _, created => ⟨created, created, [], .ok ()⟩
  | k + 1, i, created =>
    match failsAt i with
    | some e => ⟨created, created, [], .error e⟩
    | none => initLoop failsAt k (i + 1) (created ++ [i])

/-- `SeleniumMiddleware.__init__` with a fallible factory: run the
provisioning loop for `n` iterations starting from an empty queue. -/
def initMw (failsAt : Nat → Option PyError) (n : Nat) : InitResult :=
  initLoop failsAt n 0 []

/-- `SeleniumMiddleware.spider_closed` drain loop: `while not empty: get;
quit`.  (The drivers in this model are plain ids, never `None`, so the
source's `if driver is not None` guard always passes.) -/
def drainQuit : List Nat → List Nat → List Nat
  | [], term => term
  | d :: rest, term => drainQuit rest (d :: term)

/-- `SeleniumMiddleware.spider_closed` (lines 158–163): drain the queue,
calling `quit` on every driver found idle; checked-out drivers are
untouched. -/
def spider_closed (s : MidState) : MidState :=
  { s with pool := [], terminated := drainQuit s.pool s.terminated }

/-! ## Requests, the driver oracle, and the drive sequence -/

/-- A value stored in `request.meta`. -/
inductive MetaVal
  | png (bytes : List Nat)
  | driverRef (id : Nat)
  deriving Repr, DecidableEq

/-- Python dict read `m[k]` (as `Option`): the value bound to the first
occurrence of key `k`. -/
def metaGet (m : List (String × MetaVal)) (k : String) : Option MetaVal :=
  match m with
  | [] => none
  | (a, v) :: rest => if k = a then some v else metaGet rest k

/-- Python dict assignment `m[k] = v` / `m.update(...)` on an association
list: replace the binding when the key is present, else append it. -/
def metaSet (m : List (String × MetaVal)) (k : String) (v : MetaVal) :
    List (String × MetaVal) :=
  if (metaGet m k).isSome then
    m.map (fun kv => if kv.1 = k then (k, v) else kv)
  else m ++ [(k, v)]

/-- A `SeleniumRequest` as `process_request` consumes it: `isSelenium`
models the `isinstance(request, SeleniumRequest)` test, `wait_until`
models the truthiness of the wait-condition descriptor, and the remaining
fields are read at lines 119–143 of the source. -/
structure SelRequest where
  isSelenium : Bool
  url : String
  cookies : List (String × String)
  wait_until : Bool
  wait_time : Nat
  script : Option String
  screenshot : Bool
  meta : List (String × MetaVal)
  deriving Repr, DecidableEq

/-- The page state of one driver: current URL and current markup. -/
structure Page where
  url : String
  source : String
  deriving Repr, DecidableEq

/-- Tags naming the driver operations `process_request` performs, used to
record the order in which the drive steps complete. -/
inductive StepTag
  | navigate
  | addCookie (name : String)
  | waitUntil
  | captureShot
  | execScript
  | readSource
  | readUrl
  deriving Repr, DecidableEq

/-- The behaviour of one driver towards the external browser: each
operation either fails (raises) or yields the resulting page state.
`navigate url` returns the page after any redirects, so its `url` field is
what `driver.current_url` would report. -/
structure Oracle where
  navigate : String → Except PyError Page
  addCookie : Page → String → String → Except PyError Page
  waitUntil : Page → Nat → Except PyError Page
  shoot : Page → Except PyError (List Nat)
  execScript : Page → String → Except PyError Page

/-- Outcome of the drive sequence (lines 118–150 up to building the
response): the final page on success, the request's `meta` dict as mutated
in place so far (Python keeps these mutations even when a later step
raises), and the ordered trace of completed driver operations. -/
structure DriveResult where
  result : Except PyError Page
  meta : List (String × MetaVal)
  trace : List StepTag
  deriving Repr, DecidableEq

/-- The cookie loop (lines 121–127): apply each cookie in order, stopping
at the first failure; returns the page outcome and the completed cookie
steps. -/
def driveCookies (o : Oracle) (p : Page) :
    List (String × String) → Except PyError Page × List StepTag
  | [] => (.ok p, [])
  | (n, v) :: rest =>
    match o.addCookie p n v with
    | .error e => (.error e, [])
    | .ok p' =>
      let (r, tr) := driveCookies o p' rest
      (r, .addCookie n :: tr)

/-- The drive sequence of `process_request` (lines 119–143), for driver id
`did`: navigate, apply each cookie, wait when a condition is set (a
`WebDriverWait` timeout raises), capture and attach a screenshot when
requested, execute the script when set (result discarded, page side
effects kept), read `page_source` as the body, attach the driver to
`request.meta`, read `current_url`. -/
def drive (o : Oracle) (req : SelRequest) (did : Nat) : DriveResult :=
  match o.navigate req.url with
  | .error e => ⟨.error e, req.meta, []⟩
  | .ok p1 =>
    match driveCookies o p1 req.cookies with
    | (.error e, tr) => ⟨.error e, req.meta, .navigate :: tr⟩
    | (.ok p2, tr) =>
      let tr2 := StepTag.navigate :: tr
      match (if req.wait_until then o.waitUntil p2 req.wait_time else .ok p2) with
      | .error e => ⟨.error e, req.meta, tr2⟩
      | .ok p3 =>
        let tr3 := tr2 ++ if req.wait_until then [StepTag.waitUntil] else []
        match (if req.screenshot then (o.shoot p3).map some else .ok none) with
        | .error e => ⟨.error e, req.meta, tr3⟩
        | .ok shot? =>
          let meta1 := match shot? with
            | some b => metaSet req.meta "screenshot" (.png b)
            | none => req.meta
          let tr4 := tr3 ++ if req.screenshot then [StepTag.captureShot] else []
          match (if truthyStr req.script then o.execScript p3 (req.script.getD "") else .ok p3) with
          | .error e => ⟨.error e, meta1, tr4⟩
          | .ok p4 =>
            let tr5 := tr4 ++ if truthyStr req.script then [StepTag.execScript] else []
            let meta2 := metaSet meta1 "driver" (.driverRef did)
            ⟨.ok p4, meta2, tr5 ++ [.readSource, .readUrl]⟩

/-- The `HtmlResponse` built on success: current URL, body bytes from
`page_source`, fixed `utf-8` encoding, and the (mutated) originating
request. -/
structure Response where
  url : String
  body : String
  encoding : String
  request : SelRequest
  deriving Repr, DecidableEq

/-- What one `process_request` call does, seen by its caller. -/
inductive Outcome
  | notHandled
  | handled (r : Response)
  | raised (e : PyError)
  | blocked
  deriving Repr, DecidableEq

/-- `SeleniumMiddleware.process_request` (lines 106–156).  Non-selenium
requests pass through.  A `Queue.get` timeout raises `Empty`, but the
handler `except Empty:` references the never-imported names `Empty` and
`logging`, so what actually propagates is a `NameError`.  On a drive
failure the source runs `driver.quit()`, puts a freshly created driver
into the pool, re-raises — and then the `finally` block puts the failed
driver into the pool as well.  On success the `finally` block returns the
driver to the pool.  (The replacement `create_driver()` call is modelled
as succeeding, yielding the fresh id `nextId`.)  `Outcome.blocked` marks a
`Queue.put` blocking forever on a full queue. -/
def process_request (s : MidState) (o : Oracle) (req : SelRequest) :
    Outcome × MidState :=
  if ¬ req.isSelenium then (.notHandled, s)
  else
    match qget s with
    | none => (.raised .nameErrorEmpty, s)
    | some (d, s1) =>
      match drive o req d with
      | ⟨.ok p, m, _tr⟩ =>
        let resp : Response :=
          { url := p.url, body := p.source, encoding := "utf-8"
            request := { req with meta := m } }
        match qput s1 d with
        | none => (.blocked, s1)
        | some s2 => (.handled resp, s2)
      | ⟨.error e, _m, _tr⟩ =>
        let s2 := { s1 with terminated := d :: s1.terminated }
        let f := s2.nextId
        let s3 := { s2 with nextId := f + 1 }
        match qput s3 f with
        | none => (.blocked, s3)
        | some s4 =>
          match qput s4 d with
          | none => (.blocked, s4)
          | some s5 => (.raised e, s5)

/-! ## Concrete instances used to exercise the model -/

/-- A driver whose every operation succeeds: navigation redirects `u` to
`redir:u` and loads markup `page:u`, screenshots are the bytes `[7]`, and
a script `sc` appends `;sc` to the page markup. -/
def okOracle : Oracle :=
  { navigate := fun u => .ok ⟨"redir:" ++ u, "page:" ++ u⟩
    addCookie := fun p _ _ => .ok p
    waitUntil := fun p _ => .ok p
    shoot := fun _ => .ok [7]
    execScript := fun p sc => .ok { p with source := p.source ++ ";" ++ sc } }

/-- A driver whose navigation always fails (e.g. the browser process
died); the remaining operations are as in `okOracle`. -/
def navFailOracle : Oracle :=
  { okOracle with navigate := fun _ => .error (.drive "nav") }

/-- A selenium request with one cookie, a wait condition, a script and a
screenshot request. -/
def reqBasic : SelRequest :=
  { isSelenium := true, url := "u", cookies := [("c", "1")], wait_until := true
    wait_time := 5, script := some "s", screenshot := true, meta := [] }

/-- A middleware state whose single driver is checked out: the pool is
empty, so a `Queue.get` times out. -/
def sExhausted : MidState :=
  { poolMax := 1, nextId := 1, pool := [], checkedOut := [0], terminated := [] }

/-- Failure scenario with `pool_size = 3`: one caller has already checked
out driver `0`, and a second caller processes a request whose navigation
fails.  The second caller receives driver `1`, quits it, enqueues the
fresh driver `3` — and the `finally` block then re-enqueues the dead
driver `1`. -/
def failScenario : Outcome × MidState :=
  match qget (initPoolOk 3) with
  | some (_, s1) => process_request s1 navFailOracle reqBasic
  | none => (.blocked, initPoolOk 3)

/-- Factory behaviour whose second creation (index 1) fails. -/
def failAt1 : Nat → Option PyError :=
  fun i => if i = 1 then some (.provisioning "boom") else none

/-- A config with no executable path and no remote endpoint, for a
browser kind (`firefox`) that the webdriver-manager branch does not
handle. -/
def cfgFirefoxAuto : Config :=
  { driver_name := "firefox", driver_executable_path := none
    browser_executable_path := none, command_executor := none
    driver_arguments := [] }

/-! ## Helper lemmas -/

/-- The shutdown drain loop quits the idle drivers front-to-back, so the
final quit list is the reversed pool prepended to the previous quits. -/
theorem drainQuit_eq (l t : List Nat) : drainQuit l t = l.reverse ++ t := by
  induction l generalizing t with
  | nil => simp [drainQuit]
  | cons d rest ih => simp [drainQuit, ih]

/-- Replacing the binding of key `k` does not change lookups at other
keys. -/
theorem metaGet_map_keep (m : List (String × MetaVal)) (k k' : String) (v : MetaVal)
    (h : k' ≠ k) :
    metaGet (m.map (fun kv => if kv.1 = k then (k, v) else kv)) k' = metaGet m k' := by
  induction m with
  | nil => rfl
  | cons kv rest ih =>
    obtain ⟨a, b⟩ := kv
    simp only [List.map_cons]
    by_cases ha : a = k
    · subst ha
      rw [if_pos (show (a, b).1 = a from rfl)]
      simp only [metaGet]
      rw [if_neg h, if_neg h]
      exact ih
    · rw [if_neg (show ¬(a, b).1 = k from ha)]
      simp only [metaGet]
      by_cases hk : k' = a
      · rw [if_pos hk, if_pos hk]
      · rw [if_neg hk, if_neg hk]
        exact ih

/-- Replacing the binding of a present key `k` makes lookups at `k`
return the new value. -/
theorem metaGet_map_self (m : List (String × MetaVal)) (k : String) (v : MetaVal)
    (h : (metaGet m k).isSome) :
    metaGet (m.map (fun kv => if kv.1 = k then (k, v) else kv)) k = some v := by
  induction m with
  | nil => simp [metaGet] at h
  | cons kv rest ih =>
    obtain ⟨a, b⟩ := kv
    simp only [List.map_cons]
    by_cases ha : a = k
    · subst ha
      rw [if_pos (show (a, b).1 = a from rfl)]
      simp only [metaGet]
      simp
    · rw [if_neg (show ¬(a, b).1 = k from ha)]
      simp only [metaGet] at h ⊢
      rw [if_neg (fun hk => ha hk.symm)] at h ⊢
      exact ih h

/-- Lookup after appending a single binding at the back. -/
theorem metaGet_append_single (m : List (String × MetaVal)) (k k' : String) (v : MetaVal) :
    metaGet (m ++ [(k, v)]) k' =
      if k' = k then some ((metaGet m k').getD v) else metaGet m k' := by
  induction m with
  | nil => simp [metaGet]
  | cons kv rest ih =>
    obtain ⟨a, b⟩ := kv
    by_cases ha : k' = a
    · subst ha
      by_cases hk : k' = k <;> simp [metaGet, ih, hk]
    · simp [metaGet, ha, ih]

/-- Dict assignment then lookup at the same key yields the assigned
value. -/
theorem metaGet_metaSet_self (m : List (String × MetaVal)) (k : String) (v : MetaVal) :
    metaGet (metaSet m k v) k = some v := by
  unfold metaSet
  by_cases h : (metaGet m k).isSome
  · rw [if_pos h]
    exact metaGet_map_self m k v h
  · rw [if_neg h]
    rw [metaGet_append_single, if_pos rfl,
      Option.not_isSome_iff_eq_none.mp h]
    rfl

/-- Dict assignment does not change lookups at other keys. -/
theorem metaGet_metaSet_ne (m : List (String × MetaVal)) (k k' : String) (v : MetaVal)
    (h : k' ≠ k) :
    metaGet (metaSet m k v) k' = metaGet m k' := by
  unfold metaSet
  by_cases hs : (metaGet m k).isSome
  · rw [if_pos hs]
    exact metaGet_map_keep m k k' v h
  · rw [if_neg hs, metaGet_append_single, if_neg h]

/-- A successful cookie loop records one `addCookie` step per cookie, in
request order. -/
theorem driveCookies_ok_trace (o : Oracle) (cookies : List (String × String)) :
    ∀ (p p2 : Page) (tr : List StepTag),
      driveCookies o p cookies = (.ok p2, tr) →
      tr = cookies.map (fun cv => StepTag.addCookie cv.1) := by
  induction cookies with
  | nil =>
    intro p p2 tr h
    simp only [driveCookies, Prod.mk.injEq] at h
    simp [← h.2]
  | cons cv rest ih =>
    intro p p2 tr h
    obtain ⟨n, v⟩ := cv
    simp only [driveCookies] at h
    cases hac : o.addCookie p n v with
    | error e => rw [hac] at h; simp at h
    | ok p' =>
      rw [hac] at h
      dsimp only at h
      rcases hdc : driveCookies o p' rest with ⟨r, tr'⟩
      rw [hdc] at h
      simp only [Prod.mk.injEq] at h
      obtain ⟨h1, h2⟩ := h
      subst h1
      rw [← h2, List.map_cons]
      rw [ih p' p2 tr' hdc]

/-- A successful drive performs the steps in source order and attaches
the driver (and the screenshot when requested) to the request `meta`. -/
theorem drive_ok_spec (o : Oracle) (req : SelRequest) (did : Nat)
    (p : Page) (m : List (String × MetaVal)) (tr : List StepTag)
    (h : drive o req did = ⟨.ok p, m, tr⟩) :
    tr = [StepTag.navigate] ++ req.cookies.map (fun cv => StepTag.addCookie cv.1)
        ++ (if req.wait_until then [StepTag.waitUntil] else [])
        ++ (if req.screenshot then [StepTag.captureShot] else [])
        ++ (if truthyStr req.script then [StepTag.execScript] else [])
        ++ [StepTag.readSource, StepTag.readUrl] ∧
    metaGet m "driver" = some (.driverRef did) ∧
    (req.screenshot = true → ∃ b, metaGet m "screenshot" = some (.png b)) := by
  unfold drive at h
  cases hnav : o.navigate req.url with
  | error e => rw [hnav] at h; simp at h
  | ok p1 =>
    rw [hnav] at h
    dsimp only at h
    rcases hdc : driveCookies o p1 req.cookies with ⟨rc, trc⟩
    rw [hdc] at h
    cases rc with
    | error e => simp at h
    | ok p2 =>
      dsimp only at h
      have htrc := driveCookies_ok_trace o req.cookies p1 p2 trc hdc
      cases hwr : (if req.wait_until then o.waitUntil p2 req.wait_time else .ok p2) with
      | error e => rw [hwr] at h; simp at h
      | ok p3 =>
        rw [hwr] at h
        dsimp only at h
        cases hsr : (if req.screenshot then (o.shoot p3).map some else .ok none) with
        | error e => rw [hsr] at h; simp at h
        | ok shot? =>
          rw [hsr] at h
          dsimp only at h
          cases hscr : (if truthyStr req.script then o.execScript p3 (req.script.getD "") else .ok p3) with
          | error e => rw [hscr] at h; simp at h
          | ok p4 =>
            rw [hscr] at h
            dsimp only at h
            cases shot? with
            | some b =>
              dsimp only at h
              injection h with h1 h2 h3
              refine ⟨?_, ?_, ?_⟩
              · rw [← h3, htrc]
                simp
              · rw [← h2, metaGet_metaSet_self]
              · intro _
                rw [← h2]
                rw [metaGet_metaSet_ne _ _ _ _ (by decide), metaGet_metaSet_self]
                exact ⟨b, rfl⟩
            | none =>
              dsimp only at h
              injection h with h1 h2 h3
              refine ⟨?_, ?_, ?_⟩
              · rw [← h3, htrc]
                simp
              · rw [← h2, metaGet_metaSet_self]
              · intro hscreen
                rw [hscreen] at hsr
                simp only [if_true] at hsr
                cases hb : o.shoot p3 with
                | error e => rw [hb] at hsr; simp [Except.map] at hsr
                | ok b => rw [hb] at hsr; simp [Except.map] at hsr

/-- The drive sequence only ever touches the `screenshot` and `driver`
keys of the request `meta`, whether it fails or succeeds. -/
theorem drive_meta_frame (o : Oracle) (req : SelRequest) (did : Nat) (k : String)
    (h1 : k ≠ "screenshot") (h2 : k ≠ "driver") :
    metaGet (drive o req did).meta k = metaGet req.meta k := by
  unfold drive
  cases hnav : o.navigate req.url with
  | error e => rfl
  | ok p1 =>
    dsimp only
    rcases hdc : driveCookies o p1 req.cookies with ⟨rc, trc⟩
    cases rc with
    | error e => rfl
    | ok p2 =>
      dsimp only
      cases hwr : (if req.wait_until then o.waitUntil p2 req.wait_time else .ok p2) with
      | error e => rfl
      | ok p3 =>
        dsimp only
        cases hsr : (if req.screenshot then (o.shoot p3).map some else .ok none) with
        | error e => rfl
        | ok shot? =>
          dsimp only
          cases hscr : (if truthyStr req.script then o.execScript p3 (req.script.getD "") else .ok p3) with
          | error e =>
            dsimp only
            cases shot? with
            | some b => exact metaGet_metaSet_ne _ _ _ _ h1
            | none => rfl
          | ok p4 =>
            dsimp only
            cases shot? with
            | some b =>
              dsimp only
              rw [metaGet_metaSet_ne _ _ _ _ h2, metaGet_metaSet_ne _ _ _ _ h1]
            | none =>
              dsimp only
              rw [metaGet_metaSet_ne _ _ _ _ h2]

/-- A `WebDriverWait` that always times out makes the whole drive fail
(the timeout is never swallowed): no success result is possible. -/
theorem drive_wait_hard (o : Oracle) (req : SelRequest) (did : Nat) (e : PyError)
    (hw : req.wait_until = true)
    (ho : ∀ pg t, o.waitUntil pg t = .error e) :
    ∃ err, (drive o req did).result = .error err := by
  unfold drive
  cases hnav : o.navigate req.url with
  | error e' => exact ⟨e', rfl⟩
  | ok p1 =>
    dsimp only
    rcases hdc : driveCookies o p1 req.cookies with ⟨rc, trc⟩
    cases rc with
    | error e' => exact ⟨e', rfl⟩
    | ok p2 =>
      dsimp only
      rw [hw]
      simp only [if_true]
      rw [ho p2 req.wait_time]
      exact ⟨e, rfl⟩

/-- The `__init__` provisioning loop never terminates a driver, whatever
the factory does. -/
theorem initLoop_terminatedInit (failsAt : Nat → Option PyError) :
    ∀ (k i : Nat) (created : List Nat),
      (initLoop failsAt k i created).terminatedInit = [] := by
  intro k
  induction k with
  | zero => intro i created; rfl
  | succ k ih =>
    intro i created
    simp only [initLoop]
    cases failsAt i with
    | none => exact ih (i + 1) (created ++ [i])
    | some e => rfl

/-- When no factory call fails, the provisioning loop creates and
enqueues exactly the ids `i, i+1, …, i+k-1`. -/
theorem initLoop_all_ok (failsAt : Nat → Option PyError) :
    ∀ (k i : Nat) (created : List Nat),
      (∀ j, i ≤ j → j < i + k → failsAt j = none) →
      initLoop failsAt k i created =
        ⟨created ++ List.range' i k, created ++ List.range' i k, [], .ok ()⟩ := by
  intro k
  induction k with
  | zero => intro i created _; simp [initLoop, List.range']
  | succ k ih =>
    intro i created h
    have h0 : failsAt i = none := h i le_rfl (by omega)
    simp only [initLoop, h0]
    rw [ih (i + 1) (created ++ [i]) (fun j hj1 hj2 => h j (by omega) (by omega))]
    simp [List.range'_succ]

/-- With an empty pool, a selenium request times out on `Queue.get` and
the broken `except Empty` handler raises `NameError`. -/
theorem process_request_empty_pool (s : MidState) (o : Oracle) (req : SelRequest)
    (hsel : req.isSelenium = true) (hpool : s.pool = []) :
    process_request s o req = (.raised .nameErrorEmpty, s) := by
  unfold process_request
  rw [hsel]
  simp only [not_true, if_false]
  simp only [qget, hpool]

/-- The success path of `process_request`: the front driver is checked
out, driven, and returned to the back of the queue; the response is built
from the final page. -/
theorem process_request_get (s : MidState) (o : Oracle) (req : SelRequest)
    (d : Nat) (rest : List Nat)
    (hsel : req.isSelenium = true) (hpool : s.pool = d :: rest)
    (p : Page) (m : List (String × MetaVal)) (tr : List StepTag)
    (hdrive : drive o req d = ⟨.ok p, m, tr⟩)
    (hroom : rest.length < s.poolMax) :
    process_request s o req =
      (.handled { url := p.url, body := p.source, encoding := "utf-8"
                  request := { req with meta := m } },
       { s with pool := rest ++ [d] }) := by
  unfold process_request
  rw [hsel]
  simp only [not_true, if_false]
  simp only [qget, hpool]
  rw [hdrive]
  dsimp only
  unfold qput
  rw [if_pos (by simpa using hroom)]
  simp [List.erase_cons_head]

/-- Inversion: a `handled` outcome can only come from the success branch,
so the response is determined by the drive of the front driver. -/
theorem process_request_handled_inv (s : MidState) (o : Oracle) (req : SelRequest)
    (r : Response) (s' : MidState)
    (h : process_request s o req = (.handled r, s')) :
    ∃ d rest p m tr, s.pool = d :: rest ∧ drive o req d = ⟨.ok p, m, tr⟩ ∧
      r = { url := p.url, body := p.source, encoding := "utf-8"
            request := { req with meta := m } } := by
  unfold process_request at h
  by_cases hsel : req.isSelenium = true
  · rw [if_neg (by simp [hsel])] at h
    cases hpool : s.pool with
    | nil => simp only [qget, hpool] at h; simp at h
    | cons d rest =>
      simp only [qget, hpool] at h
      rcases hdr : drive o req d with ⟨res, m, tr⟩
      rw [hdr] at h
      cases res with
      | ok p =>
        dsimp only at h
        refine ⟨d, rest, p, m, tr, rfl, hdr, ?_⟩
        cases hq : qput { s with pool := rest, checkedOut := d :: s.checkedOut } d with
        | none => rw [hq] at h; simp at h
        | some s2 =>
          rw [hq] at h
          simp only [Prod.mk.injEq, Outcome.handled.injEq] at h
          exact h.1.symm
      | error e =>
        dsimp only at h
        cases hq : qput { s with pool := rest, checkedOut := d :: s.checkedOut, terminated := d :: s.terminated, nextId := s.nextId + 1 } s.nextId with
        | none => rw [hq] at h; simp at h
        | some s4 =>
          rw [hq] at h
          dsimp only at h
          cases hq2 : qput s4 d with
          | none => rw [hq2] at h; simp at h
          | some s5 => rw [hq2] at h; simp at h
  · rw [if_pos ?_] at h
    · simp at h
    · simpa using hsel

/-! ## Claim theorems -/

/-- C1.  The claim says a failed session is never returned to the pool's
idle set.  The code violates it: in `failScenario` the drive of driver `1`
fails, driver `1` is quit (`terminated = [1]`) and the replacement `3` is
enqueued, but the `finally` block also re-enqueues the dead driver `1`,
which ends up idle in the pool (`pool = [2, 3, 1]`); the original failure
is re-raised. -/
theorem c1_failed_session_reenqueued :
    failScenario =
      (.raised (.drive "nav"),
       { poolMax := 3, nextId := 4, pool := [2, 3, 1], checkedOut := [0]
         terminated := [1] }) ∧
    1 ∈ failScenario.2.pool ∧ 1 ∈ failScenario.2.terminated := by
  decide

/-- C2.  The claim says (checked-out) + (idle) stays equal to `pool_size`
up to a transient dip.  After the failure path of `failScenario`
(pool size 3) the sum is 4: the terminated driver was re-enqueued next to
its replacement.  Moreover, with no other caller holding a driver, the
same failure path blocks forever: the queue is already full when the
`finally` put runs. -/
theorem c2_count_invariant_broken :
    failScenario.2.checkedOut.length + failScenario.2.pool.length = 4 ∧
    failScenario.2.poolMax = 3 ∧
    (process_request (initPoolOk 3) navFailOracle reqBasic).1 = .blocked := by
  decide

/-- C3.  The claim says a checkout timeout is logged and answered with
"not handled" (`None`).  The code's handler `except Empty:` references
`Empty` (and then `logging`), neither of which the module imports, so the
timeout actually surfaces as a raised `NameError`, not as `None`. -/
theorem c3_timeout_raises_nameerror :
    process_request sExhausted okOracle reqBasic =
      (.raised .nameErrorEmpty, sExhausted) ∧
    (process_request sExhausted okOracle reqBasic).1 ≠ .notHandled := by
  decide

/-- C4 counterexample.  After `spider_closed` has drained a pool of size
1, processing a selenium request does not fail with the spec's
`PoolClosedError`: the `Queue.get` simply times out on the empty queue
(and the broken handler raises `NameError`). -/
theorem c4_no_poolclosederror_after_shutdown :
    (process_request (spider_closed (initPoolOk 1)) okOracle reqBasic).1 ≠
      .raised .poolClosed ∧
    (process_request (spider_closed (initPoolOk 1)) okOracle reqBasic).1 =
      .raised .nameErrorEmpty := by
  decide

/-- C5 counterexample.  With `pool_size = 2` and a factory whose second
creation fails, `__init__` propagates the provisioning error, but the
session already created (id 0) is not terminated — the claim's clean-up
("every session already created ... is terminated") does not happen. -/
theorem c5_incomplete_pool_not_cleaned :
    initMw failAt1 2 = ⟨[0], [0], [], .error (.provisioning "boom")⟩ ∧
    (initMw failAt1 2).terminatedInit ≠ (initMw failAt1 2).created := by
  decide

/-- C6 counterexample.  In auto-managed mode (no executable path, no
remote endpoint) with browser kind `firefox`, `create_driver` assigns
`driver` in no branch and `return driver` raises `UnboundLocalError` —
not the spec's `UnsupportedBrowserError`. -/
theorem c6_automanaged_firefox_unboundlocal :
    create_driver cfgFirefoxAuto = .error .unboundLocal ∧
    create_driver cfgFirefoxAuto ≠ .error .unsupportedBrowser := by
  decide

/-- C9 counterexample.  A fetch does modify the dispatched request: on a
successful drive of `reqBasic` (whose `meta` is empty), the request
attached to the returned response has gained the `screenshot` and
`driver` entries in its `meta` mapping. -/
theorem c9_request_meta_mutated :
    (process_request (initPoolOk 1) okOracle reqBasic).1 =
      .handled
        { url := "redir:u", body := "page:u;s", encoding := "utf-8"
          request :=
            { reqBasic with
              meta := [("screenshot", .png [7]), ("driver", .driverRef 0)] } } ∧
    [("screenshot", MetaVal.png [7]), ("driver", MetaVal.driverRef 0)] ≠
      reqBasic.meta := by
  decide

/-- C4 (amended).  `spider_closed` terminates every idle session exactly
once and is idempotent; after it runs the queue is empty, and a
subsequent selenium request times out on `Queue.get` and surfaces the
broken handler's `NameError` — there is no `PoolClosedError`. -/
theorem c4_amended_shutdown_behavior (s : MidState) (hnd : s.pool.Nodup)
    (hdisj : ∀ d ∈ s.pool, d ∉ s.terminated) :
    (∀ d ∈ s.pool, ((spider_closed s).terminated).count d = 1) ∧
    spider_closed (spider_closed s) = spider_closed s ∧
    (spider_closed s).pool = [] ∧
    ∀ (o : Oracle) (req : SelRequest), req.isSelenium = true →
      process_request (spider_closed s) o req = (.raised .nameErrorEmpty, spider_closed s) := by
  refine ⟨?_, ?_, rfl, ?_⟩
  · intro d hd
    simp only [spider_closed, drainQuit_eq]
    rw [List.count_append, List.count_reverse,
      List.count_eq_zero.mpr (hdisj d hd),
      List.count_eq_one_of_mem hnd hd]
  · simp [spider_closed, drainQuit]
  · intro o req hsel
    exact process_request_empty_pool _ o req hsel rfl

/-- C4 witness: in a freshly provisioned pool of size 2, shutting down
terminates driver 0 exactly once. -/
theorem c4_amended_shutdown_behavior_witness :
    ((spider_closed (initPoolOk 2)).terminated).count 0 = 1 :=
  (c4_amended_shutdown_behavior (initPoolOk 2) (by decide) (by decide)).1 0 (by decide)

/-- C5 (amended).  When every factory call succeeds, `__init__` creates
exactly `pool_size` sessions and enqueues them all as idle; when a call
fails, the provisioning error propagates and the whole initialization
fails — but the sessions already created are left running, not
terminated (the loop has no cleanup, so `terminatedInit` is always
empty). -/
theorem c5_amended_init_behavior (failsAt : Nat → Option PyError) (n : Nat) :
    ((∀ i, i < n → failsAt i = none) →
      initMw failsAt n = ⟨List.range n, List.range n, [], .ok ()⟩) ∧
    (initMw failsAt n).terminatedInit = [] := by
  constructor
  · intro h
    unfold initMw
    rw [initLoop_all_ok failsAt n 0 [] (fun j _ h2 => h j (by omega))]
    simp [List.range_eq_range']
  · exact initLoop_terminatedInit failsAt n 0 []

/-- C5 witness: with an always-succeeding factory and `pool_size = 2`,
both sessions are created and enqueued with nothing terminated. -/
theorem c5_amended_init_behavior_witness :
    initMw (fun _ => none) 2 = ⟨List.range 2, List.range 2, [], .ok ()⟩ :=
  (c5_amended_init_behavior (fun _ => none) 2).1 (fun _ _ => rfl)

/-- C6 (amended).  In auto-managed mode (no executable path, no remote
endpoint), every browser kind other than chrome makes `create_driver`
fail with `UnboundLocalError`: no branch assigns `driver` before
`return driver`. -/
theorem c6_amended_automanaged_unboundlocal (c : Config)
    (h1 : c.driver_executable_path = none) (h2 : c.command_executor = none)
    (h3 : lowerStr c.driver_name ≠ "chrome") :
    create_driver c = .error .unboundLocal := by
  unfold create_driver
  rw [h1, h2]
  simp [h3]

/-- C6 witness: the `opera` kind in auto-managed mode. -/
theorem c6_amended_automanaged_unboundlocal_witness :
    create_driver
      { driver_name := "opera", driver_executable_path := none
        browser_executable_path := none, command_executor := none
        driver_arguments := [] } = .error .unboundLocal :=
  c6_amended_automanaged_unboundlocal _ rfl rfl (by decide)

/-- C7.  `create_driver` selects exactly one provisioning mode with the
spec's precedence (local binary if `executable_path` is set, else remote
if the remote endpoint is set, else auto-managed), and every produced
driver carries the options built from the config — binary location and
the startup arguments in order. -/
theorem c7_mode_precedence (c : Config) :
    modeOf (create_driver c) = specMode c ∧
    (∀ d, create_driver c = .ok d → d.opts = buildOptions c) ∧
    (buildOptions c).arguments = c.driver_arguments ∧
    ∀ p, c.driver_executable_path = some p →
      create_driver c = .ok (.localDriver p (c.driver_name ++ "_options") (buildOptions c)) := by
  refine ⟨?_, ?_, rfl, ?_⟩
  · unfold specMode
    cases hd : c.driver_executable_path with
    | some p => simp [create_driver, hd, modeOf]
    | none =>
      cases hc : c.command_executor with
      | some ep => simp [create_driver, hd, hc, modeOf]
      | none =>
        simp only [create_driver, hd, hc, Option.isSome_none]
        cases hch : (decide (c.driver_name ≠ "") && (lowerStr c.driver_name == "chrome")) with
        | true => simp [hch, modeOf]
        | false => simp [hch, modeOf]
  · intro d hd
    unfold create_driver at hd
    cases hde : c.driver_executable_path with
    | some p => rw [hde] at hd; dsimp only at hd; injection hd with h; rw [← h]; rfl
    | none =>
      rw [hde] at hd
      cases hce : c.command_executor with
      | some ep => rw [hce] at hd; dsimp only at hd; injection hd with h; rw [← h]; rfl
      | none =>
        rw [hce] at hd
        dsimp only at hd
        split at hd
        · injection hd with h; rw [← h]; rfl
        · exact absurd hd (by simp)
  · intro p hp
    unfold create_driver
    rw [hp]

/-- C7 witness: a config setting the executable path, a remote endpoint
and arguments at once takes the local-binary branch with the arguments
in order. -/
theorem c7_mode_precedence_witness :
    create_driver
      { driver_name := "chrome", driver_executable_path := some "/d"
        browser_executable_path := some "/b", command_executor := some "ep"
        driver_arguments := ["a1", "a2"] } =
      .ok (.localDriver "/d" ("chrome" ++ "_options")
        (buildOptions
          { driver_name := "chrome", driver_executable_path := some "/d"
            browser_executable_path := some "/b", command_executor := some "ep"
            driver_arguments := ["a1", "a2"] })) :=
  (c7_mode_precedence _).2.2.2 "/d" rfl

/-- C8.  A successful fetch checks out the front driver, performs
navigate, each cookie in order, wait (when set), screenshot (when
requested), script (when set), then reads the markup and the current
URL; it returns the driver to the pool untouched and answers with the
final (possibly redirected) URL, the final markup as body, utf-8
encoding, and the screenshot attached to the request metadata.  A wait
timeout is a hard failure: with a wait condition set and a driver whose
wait always times out, no success result exists. -/
theorem c8_success_path (s : MidState) (o : Oracle) (req : SelRequest)
    (d : Nat) (rest : List Nat) (p : Page) (m : List (String × MetaVal))
    (tr : List StepTag)
    (hsel : req.isSelenium = true)
    (hpool : s.pool = d :: rest)
    (hroom : rest.length < s.poolMax)
    (hdrive : drive o req d = ⟨.ok p, m, tr⟩) :
    process_request s o req =
      (.handled { url := p.url, body := p.source, encoding := "utf-8"
                  request := { req with meta := m } },
       { s with pool := rest ++ [d] }) ∧
    tr = [StepTag.navigate] ++ req.cookies.map (fun cv => StepTag.addCookie cv.1)
        ++ (if req.wait_until then [StepTag.waitUntil] else [])
        ++ (if req.screenshot then [StepTag.captureShot] else [])
        ++ (if truthyStr req.script then [StepTag.execScript] else [])
        ++ [StepTag.readSource, StepTag.readUrl] ∧
    metaGet m "driver" = some (.driverRef d) ∧
    (req.screenshot = true → ∃ b, metaGet m "screenshot" = some (.png b)) ∧
    ∀ (o' : Oracle) (e : PyError), req.wait_until = true →
      (∀ pg t, o'.waitUntil pg t = .error e) →
      ∃ err, (drive o' req d).result = .error err := by
  obtain ⟨h1, h2, h3⟩ := drive_ok_spec o req d p m tr hdrive
  exact ⟨process_request_get s o req d rest hsel hpool p m tr hdrive hroom,
    h1, h2, h3, fun o' e hw ho => drive_wait_hard o' req d e hw ho⟩

/-- C8 witness: the concrete fetch of `reqBasic` through `okOracle` on a
pool of size 1 returns the redirected URL and post-script markup and
re-enqueues driver 0. -/
theorem c8_success_path_witness :
    process_request (initPoolOk 1) okOracle reqBasic =
      (.handled { url := "redir:u", body := "page:u;s", encoding := "utf-8"
                  request :=
                    { reqBasic with
                      meta := [("screenshot", .png [7]), ("driver", .driverRef 0)] } },
       { initPoolOk 1 with pool := [] ++ [0] }) :=
  (c8_success_path (initPoolOk 1) okOracle reqBasic 0 []
    ⟨"redir:u", "page:u;s"⟩
    [("screenshot", .png [7]), ("driver", .driverRef 0)]
    [.navigate, .addCookie "c", .waitUntil, .captureShot, .execScript, .readSource, .readUrl]
    rfl (by decide) (by decide) (by decide)).1

/-- C9 (amended).  A fetch leaves every request field unchanged except
the `meta` mapping, and even there touches only the `screenshot` and
`driver` keys: lookups at any other key are unchanged, both in the
in-place mutation done by the drive sequence and in the request attached
to a handled response. -/
theorem c9_amended_meta_frame (o : Oracle) (req : SelRequest) (did : Nat) (k : String)
    (h1 : k ≠ "screenshot") (h2 : k ≠ "driver") :
    metaGet (drive o req did).meta k = metaGet req.meta k ∧
    ∀ (s : MidState) (r : Response) (s' : MidState),
      process_request s o req = (.handled r, s') →
      r.request.url = req.url ∧ r.request.cookies = req.cookies ∧
      r.request.wait_until = req.wait_until ∧
      r.request.wait_time = req.wait_time ∧
      r.request.script = req.script ∧
      r.request.screenshot = req.screenshot ∧
      metaGet r.request.meta k = metaGet req.meta k := by
  refine ⟨drive_meta_frame o req did k h1 h2, ?_⟩
  intro s r s' h
  obtain ⟨d, rest, p, m, tr, hpool, hdr, hr⟩ := process_request_handled_inv s o req r s' h
  subst hr
  refine ⟨rfl, rfl, rfl, rfl, rfl, rfl, ?_⟩
  have := drive_meta_frame o req d k h1 h2
  rw [hdr] at this
  exact this

/-- C9 witness: lookups at the key `referer` are unchanged by the drive
of `reqBasic`. -/
theorem c9_amended_meta_frame_witness :
    metaGet (drive okOracle reqBasic 0).meta "referer" = metaGet reqBasic.meta "referer" :=
  (c9_amended_meta_frame okOracle reqBasic 0 "referer" (by decide) (by decide)).1

/-- C10.  `spider_closed` terminates only the sessions idle in the queue
when it drains: a session currently checked out is not terminated, and
when its holder later puts it back, it lands in the drained pool and a
subsequent `Queue.get` hands it out again. -/
theorem c10_shutdown_spares_checked_out (s : MidState) (d : Nat)
    (hout : d ∈ s.checkedOut) (hnp : d ∉ s.pool) (hnt : d ∉ s.terminated)
    (hmax : 0 < s.poolMax) :
    d ∉ (spider_closed s).terminated ∧
    ∃ s'', qput (spider_closed s) d = some s'' ∧ s''.pool = [d] ∧
      ∃ s3, qget s'' = some (d, s3) := by
  constructor
  · simp only [spider_closed, drainQuit_eq, List.mem_append, List.mem_reverse]
    rintro (h | h)
    · exact hnp h
    · exact hnt h
  · have hq : qput (spider_closed s) d =
        some { spider_closed s with pool := [d], checkedOut := s.checkedOut.erase d } := by
      unfold qput
      rw [if_pos (by simpa using hmax)]
      rfl
    exact ⟨_, hq, rfl, _, rfl⟩

/-- C10 witness: in `sExhausted` (driver 0 checked out of a drained
pool), shutdown does not terminate driver 0. -/
theorem c10_shutdown_spares_checked_out_witness :
    0 ∉ (spider_closed sExhausted).terminated :=
  (c10_shutdown_spares_checked_out sExhausted 0 (by decide) (by decide)
    (by decide) (by decide)).1

end ScrapySelenium
